import Mathlib

/-!
Manifestationroom — verification of the AI-analysis core.

Shallow embedding of the AI-result acquisition / fallback pipeline and the
classification-aggregation logic of the Manifestationroom repository:

* `src/src/components/enhanced-analysis.tsx`
  (`parseAIResponse`, `generateManifestationPath`, `getDemoMockResponse`,
   `MOCK_PROFILES`, `generateFallbackAnalysis`, `useVisionAnalysis.analyzeImages`)
* `src/App.tsx` (the `VisionAnalysis` record type)
* the application entry file holding `detectRelations`.

All machine numbers are modelled as `Nat`/`ℚ`.  JavaScript `undefined` for an
absent object property is modelled as `Option.none`.  The similarity scores
0.2/0.3 in `detectRelations` are modelled in `ℚ`: every sum the code can form,
`c*0.2 + e*0.3 + v*0.3` for small counts, is computed exactly in binary64 at
the only threshold-critical point (`1*0.2 + 1*0.3` is exactly `0.5` in
binary64, and all other reachable values are at distance ≥ 0.1 from 0.5, far
above rounding error), so the rational model decides `similarity >= 0.5` the
same way the JavaScript floats do.
-/

/-- Component `visualDNA` of the AI response (interface `ClaudeVisionResponse`
in `enhanced-analysis.tsx`).  The TypeScript interface declares
`spatialFeeling : string` as required, but one object in `MOCK_PROFILES`
omits the property (it is `undefined` at run time), so the field is modelled
as `Option String`; values the interface promises are `some _`. -/
structure VisualDNA where
  colorPalette : List String
  materials : List String
  lighting : String
  spatialFeeling : Option String
  emotionalCore : List String
  archetype : String
deriving DecidableEq

/-- Component `lifestyleInference` of the AI response. -/
structure LifestyleInference where
  pace : String
  values : List String
  dailyRituals : List String
deriving DecidableEq

/-- Component `sensoryTriggers` of the AI response. -/
structure SensoryTriggers where
  smell : String
  sound : String
  touch : String
deriving DecidableEq

/-- One element of the `sopMapping` array of the AI response:
`module` (WRITE_PLAN / PLAN / DO / CHECK), `subSystem`, `visualCue`,
`actions`. -/
structure SopMappingEntry where
  module : String
  subSystem : String
  visualCue : String
  actions : List String
deriving DecidableEq

/-- The structured result of one AI vision call (interface
`ClaudeVisionResponse` in `enhanced-analysis.tsx`). -/
structure ClaudeVisionResponse where
  visualDNA : VisualDNA
  lifestyleInference : LifestyleInference
  sensoryTriggers : SensoryTriggers
  sopMapping : List SopMappingEntry
deriving DecidableEq

/-- One element of the derived 4-week plan (`manifestationPath`). -/
structure ManifestationPathEntry where
  week : Nat
  focus : String
  actions : List String
deriving DecidableEq

/-- The aggregate record handed to the presentation layer (`VisionAnalysis`
in `src/App.tsx`).  `relatedVisions` is an optional property, absent until
`detectRelations` fills it in. -/
structure VisionAnalysis where
  id : String
  imageUrl : String
  uploadedAt : Nat
  visualDNA : VisualDNA
  lifestyleInference : LifestyleInference
  sensoryTriggers : SensoryTriggers
  sopMapping : List SopMappingEntry
  manifestationPath : List ManifestationPathEntry
  relatedVisions : Option (List String)
deriving DecidableEq

/-- JavaScript `x?.actions[0] || dflt`: the first action of a found
`sopMapping` entry, or `dflt` when the entry is absent, its `actions` array
is empty, or the first action is the falsy empty string. -/
def firstActionOr (found : Option SopMappingEntry) (dflt : String) : String :=
  match found with
  | none => dflt
  | some e =>
    match e.actions.head? with
    | none => dflt
    | some a => if a = "" then dflt else a

/-- Function `generateManifestationPath` of `enhanced-analysis.tsx` (lines
438-473):
the fixed 4-week plan, each week picking actions from the `sopMapping` by
`module` / `subSystem` lookup with literal defaults. -/
def generateManifestationPath (aiResult : ClaudeVisionResponse) :
    List ManifestationPathEntry :=
  [ { week := 1
      focus := "WRITE & PLAN (收集与定源)"
      actions :=
        [ firstActionOr (aiResult.sopMapping.find? (fun m => m.module == "WRITE_PLAN")) "更新收集箱"
        , firstActionOr (aiResult.sopMapping.find? (fun m => m.module == "PLAN")) "设定本月OKR" ] }
  , { week := 2
      focus := "DO: 空间与物品 (Inventory)"
      actions :=
        [ firstActionOr (aiResult.sopMapping.find? (fun m => m.subSystem == "生活物品库存")) "清理空间"
        , "断舍离不符物品" ] }
  , { week := 3
      focus := "DO: 习惯与健康 (Routine)"
      actions :=
        [ firstActionOr (aiResult.sopMapping.find? (fun m => m.subSystem == "营养与健康")) "优化晨间仪式"
        , "执行每日骑行/运动" ] }
  , { week := 4
      focus := "CHECK & OUTPUT (创造与复盘)"
      actions :=
        [ firstActionOr (aiResult.sopMapping.find? (fun m => m.subSystem == "R.I.A. 阅读系统")) "Heptabase 输出"
        , firstActionOr (aiResult.sopMapping.find? (fun m => m.module == "CHECK")) "月度复盘" ] } ]

/-- Function `getDemoMockResponse` of `enhanced-analysis.tsx` (lines
475-540): the
canonical demo result returned for the sentinel file name. -/
def getDemoMockResponse : ClaudeVisionResponse :=
  { visualDNA :=
      { colorPalette := ["#E8DCC4", "#C9A882", "#8B7355"]
        materials := ["Terra Cotta", "Linen", "Wood", "Brass"]
        lighting := "Warm Morning Light"
        spatialFeeling := some "Mediterranean Slow Life"
        emotionalCore := ["Calm", "Grounded", "Intentional"]
        archetype := "Mediterranean Creator" }
    lifestyleInference :=
      { pace := "Slow & Intentional"
        values := ["Quality over Quantity", "Handmade over Industrial", "Present moment"]
        dailyRituals := ["Morning barefoot meditation", "Hand-pour coffee ritual", "Candlelight reflection"] }
    sensoryTriggers :=
      { smell := "Fresh rosemary & Coffee"
        sound := "Breeze in linen curtains"
        touch := "Rough terra cotta & Smooth wood" }
    sopMapping :=
      [ { module := "WRITE_PLAN", subSystem := "收集箱", visualCue := "整体氛围"
          actions := ["将\"地中海慢生活\"愿景图存入收集箱", "提取\"陶土/亚麻\"关键词"] }
      , { module := "PLAN", subSystem := "OKR及项目管理", visualCue := "生活方式转变"
          actions := ["设定目标: 打造地中海风格居家空间", "KR: 更换所有塑料容器为陶/木材质"] }
      , { module := "DO", subSystem := "生活物品库存", visualCue := "材质细节"
          actions := ["采购手工陶碗和木砧板", "断���离化纤衣物，购入亚麻家居服"] }
      , { module := "DO", subSystem := "营养与健康", visualCue := "饮食暗示"
          actions := ["建立\"慢食仪式\": 每餐前5分钟感恩", "准备全谷物与橄榄油食谱"] }
      , { module := "DO", subSystem := "R.I.A. 阅读系统", visualCue := "知识氛围"
          actions := ["阅读《Wabi-Sabi》与材质美学书籍", "在 Heptabase 输出阅读笔记"] }
      , { module := "DO", subSystem := "活动与旅行计划", visualCue := "文化暗示"
          actions := ["周末探访本地陶艺工作室", "计划一次地中海文化相关的旅行"] }
      , { module := "CHECK", subSystem := "回顾纠偏", visualCue := "一致性"
          actions := ["每日对比空间照片与愿景图", "复盘 DAILY_ROUTINE 执行率"] } ] }

/-- Entry `MOCK_PROFILES[0]` — "Mediterranean Elegance". -/
def mockProfileMediterranean : ClaudeVisionResponse :=
  { visualDNA :=
      { colorPalette := ["#F5F0E8", "#8B6F47", "#FFFFFF", "#2C2420"]
        materials := ["Terra Cotta", "Raw Concrete", "Linen", "Vintage Wood"]
        lighting := "Golden Hour Diffused"
        spatialFeeling := some "Expansive yet Intimate"
        emotionalCore := ["Confident", "Sensual", "Unhurried", "Theatrical"]
        archetype := "Mediterranean Muse" }
    lifestyleInference :=
      { pace := "Slow Mornings (9-11am)"
        values := ["Beauty as Daily Life", "Body as Art", "Space as Stage"]
        dailyRituals := ["Barefoot Grounding", "Natural Light Yoga", "Candlelight Dinner"] }
    sensoryTriggers :=
      { smell := "Fig & Old Wood"
        sound := "Distant Bells & Fabric Rustle"
        touch := "Cool Terra Cotta & Soft Linen" }
    sopMapping :=
      [ { module := "WRITE_PLAN", subSystem := "收集箱", visualCue := "Aesthetic"
          actions := ["Remove plastic items", "Add linen to wishlist"] }
      , { module := "PLAN", subSystem := "OKR及项目管理", visualCue := "Upgrade"
          actions := ["Target: Aesthetic Upgrade", "KR: Replace 3 synthetic items"] }
      , { module := "DO", subSystem := "生活物品库存", visualCue := "Materials"
          actions := ["Buy Linen Bedding", "Buy Vintage Chair"] }
      , { module := "DO", subSystem := "健身运动管理 2.0", visualCue := "Body"
          actions := ["Pilates 3x/week", "Practice Conscious Posture"] }
      , { module := "DO", subSystem := "内容创作系统", visualCue := "Light"
          actions := ["Photo Shoot: Light & Shadow", "Study Helmut Newton"] }
      , { module := "CHECK", subSystem := "回顾纠偏", visualCue := "Review"
          actions := ["Daily Body Feeling Journal"] } ] }

/-- Entry `MOCK_PROFILES[1]` — "Urban Minimalist".  The object literal in the
source omits the `spatialFeeling` property (although the declared element
type `ClaudeVisionResponse` requires it), so the field is `none`. -/
def mockProfileUrban : ClaudeVisionResponse :=
  { visualDNA :=
      { colorPalette := ["#4A3C2E", "#1C1C1C", "#D4C5B0"]
        materials := ["Wool", "Stone", "Aged Architecture"]
        lighting := "Overcast Diffused"
        spatialFeeling := none
        emotionalCore := ["Introspective", "Independent", "Intellectual"]
        archetype := "Urban Flâneur" }
    lifestyleInference :=
      { pace := "Observational & Solitary"
        values := ["Intellectual Depth", "Minimalism", "Observation"]
        dailyRituals := ["Afternoon City Walk", "Cafe Reading", "People Watching"] }
    sensoryTriggers :=
      { smell := "Rain on Asphalt"
        sound := "City Hum"
        touch := "Rough Wool & Cold Stone" }
    sopMapping :=
      [ { module := "WRITE_PLAN", subSystem := "收集箱", visualCue := "Urban"
          actions := ["Capture city textures", "Note observation ideas"] }
      , { module := "DO", subSystem := "生活物品库存", visualCue := "Wardrobe"
          actions := ["Keep 5 High-Quality Coats", "Declutter Wardrobe"] }
      , { module := "DO", subSystem := "R.I.A. 阅读系统", visualCue := "Intellect"
          actions := ["Read Philosophy Books", "Cafe Reading Session"] }
      , { module := "DO", subSystem := "内容创作系统", visualCue := "People"
          actions := ["Observation Journal: Stranger Stories"] }
      , { module := "CHECK", subSystem := "回顾纠偏", visualCue := "Solitude"
          actions := ["Weekly Solitude Audit"] } ] }

/-- Entry `MOCK_PROFILES[2]` — "Wabi-Sabi Sanctuary". -/
def mockProfileWabiSabi : ClaudeVisionResponse :=
  { visualDNA :=
      { colorPalette := ["#C4A574", "#8B7355", "#3D3D3D"]
        materials := ["Raw Concrete", "Natural Wood", "Linen"]
        lighting := "Warm Ambient Layers"
        spatialFeeling := some "Low Profile Zen Flow"
        emotionalCore := ["Grounded", "Meditative", "Uncluttered"]
        archetype := "Wabi-Sabi Essentialist" }
    lifestyleInference :=
      { pace := "Grounded & Present"
        values := ["Imperfection", "Silence", "Nature"]
        dailyRituals := ["Floor Tea Ceremony", "Floor Reading", "Nothing Time"] }
    sensoryTriggers :=
      { smell := "Earth & Tea"
        sound := "Silence"
        touch := "Raw Wood Texture" }
    sopMapping :=
      [ { module := "DO", subSystem := "生活物品库存", visualCue := "Simplicity"
          actions := ["One-In-One-Out Rule", "Lower Furniture Height"] }
      , { module := "DO", subSystem := "习惯追踪器", visualCue := "Living"
          actions := ["Floor Living Day", "Remove Ceiling Lights"] }
      , { module := "DO", subSystem := "Finance", visualCue := "Craft"
          actions := ["Invest in Handmade Crafts", "Stop Impulse Buying"] }
      , { module := "CHECK", subSystem := "回顾纠偏", visualCue := "Space"
          actions := ["Declutter Check", "Silence Audit"] } ] }

/-- Entry `MOCK_PROFILES[3]` — "Coffee Ritual Corner". -/
def mockProfileCoffee : ClaudeVisionResponse :=
  { visualDNA :=
      { colorPalette := ["#3C3C3C", "#000000", "#A88B6F"]
        materials := ["Steel", "Glass", "Dark Wood"]
        lighting := "Focused Spot"
        spatialFeeling := some "Precision Corner"
        emotionalCore := ["Precision", "Self Care", "Focus"]
        archetype := "Ritual Master" }
    lifestyleInference :=
      { pace := "Precise & Slow Start"
        values := ["Process", "Quality", "Patience"]
        dailyRituals := ["Morning Pour Over", "Bean Grinding", "Tech-Free Morning"] }
    sensoryTriggers :=
      { smell := "Fresh Ground Coffee"
        sound := "Water Pouring"
        touch := "Warm Ceramic Cup" }
    sopMapping :=
      [ { module := "DO", subSystem := "习惯追踪器", visualCue := "Morning"
          actions := ["06:30 Coffee Ceremony", "No Phone during Coffee"] }
      , { module := "DO", subSystem := "生活物品库存", visualCue := "Gear"
          actions := ["Setup Coffee Corner", "Buy Pour Over Gear"] }
      , { module := "DO", subSystem := "知识管理", visualCue := "Taste"
          actions := ["Study Coffee Origins", "Tasting Notes Log"] } ] }

/-- Entry `MOCK_PROFILES[4]` — "Quiet Companionship". -/
def mockProfileQuiet : ClaudeVisionResponse :=
  { visualDNA :=
      { colorPalette := ["#E0E0E0", "#303030", "#A0A0A0"]
        materials := ["Soft Light", "Paper", "Fur"]
        lighting := "Window Blinds Shadow"
        spatialFeeling := some "Shared Solitude"
        emotionalCore := ["Solitude", "Connection", "Peace"]
        archetype := "Silent Companion" }
    lifestyleInference :=
      { pace := "Gentle & Shared"
        values := ["Quiet Presence", "Deep Connection", "Peace"]
        dailyRituals := ["Silent Reading Hour", "Cat Meditation", "Window Gazing"] }
    sensoryTriggers :=
      { smell := "Clean Laundry"
        sound := "Turning Pages"
        touch := "Soft Fur" }
    sopMapping :=
      [ { module := "DO", subSystem := "活动与旅行计划", visualCue := "Social"
          actions := ["Practice Silent Company", "Invite Friend for \"Nothing\""] }
      , { module := "DO", subSystem := "R.I.A. 阅读系统", visualCue := "Focus"
          actions := ["Daily Quality Solitude", "Paper Book Reading"] } ] }

/-- Array `MOCK_PROFILES` of `enhanced-analysis.tsx` (lines 546-681): the
fixed
library of pre-authored safe results used for Fallback Substitution. -/
def MOCK_PROFILES : List ClaudeVisionResponse :=
  [ mockProfileMediterranean, mockProfileUrban, mockProfileWabiSabi
  , mockProfileCoffee, mockProfileQuiet ]

/-- The profile-selection logic of `generateFallbackAnalysis`
(lines 687-694): `modIndex = index % 8` mapped through a fixed table to a
profile index in `MOCK_PROFILES`.  The trailing `0` is the initial value of
the mutable `profileIndex`, reached by no residue. -/
def profileIndexForImage (index : Nat) : Nat :=
  let modIndex := index % 8
  if modIndex = 0 ∨ modIndex = 2 then 0
  else if modIndex = 1 then 1
  else if modIndex = 3 ∨ modIndex = 6 ∨ modIndex = 7 then 2
  else if modIndex = 4 then 3
  else if modIndex = 5 then 4
  else 0

/-- An uploaded file as the analysis code observes it: its `name` and the
object URL `URL.createObjectURL(file)` would mint for it. -/
structure FileInput where
  name : String
  url : String
deriving DecidableEq

/-- Function `generateFallbackAnalysis` of `enhanced-analysis.tsx` (lines
683-708):
the Fallback Substitution for image `index`, drawn from `MOCK_PROFILES` at
`profileIndexForImage index` (always in range, so the `getD` default is
unreachable).  `now` stands for `Date.now()`; the 800 ms cosmetic delay has
no observable effect on the produced record. -/
def generateFallbackAnalysis (now : Nat) (file : FileInput) (index : Nat) :
    VisionAnalysis :=
  let mockProfile := MOCK_PROFILES.getD (profileIndexForImage index) mockProfileMediterranean
  { id := "vision-simulated-" ++ toString now ++ "-" ++ toString index
    imageUrl := file.url
    uploadedAt := now
    visualDNA := mockProfile.visualDNA
    lifestyleInference := mockProfile.lifestyleInference
    sensoryTriggers := mockProfile.sensoryTriggers
    sopMapping := mockProfile.sopMapping
    manifestationPath := generateManifestationPath mockProfile
    relatedVisions := none }

/-- The two live transports `analyzeImages` can invoke.  Each of
`analyzeVisionWithClaude` / `analyzeVisionWithModelScope` performs exactly
one `fetch` when invoked, so "transport invoked" coincides with "provider
function called". -/
inductive Provider where
  | claude
  | modelScope
deriving DecidableEq

/-- The ambient state one batch of `analyzeImages` runs in:
the stored credential `localStorage.getItem("anthropic_api_key")`, the
outcome each provider call would produce for image `i` (`Except.error msg`
models a thrown `Error(msg)`), and `Date.now()`. -/
structure Env where
  claudeKey : Option String
  claudeCall : Nat → Except String ClaudeVisionResponse
  modelScopeCall : Nat → Except String ClaudeVisionResponse
  now : Nat

/-- JavaScript `s.startsWith(pre)`. -/
def strStartsWith (s pre : String) : Bool :=
  pre.toList.isPrefixOf s.toList

/-- The guard `claudeKey && claudeKey.startsWith("sk-")` (line 373):
`null` and the falsy empty string fail the first conjunct. -/
def claudeKeyConfigured (key : Option String) : Bool :=
  match key with
  | none => false
  | some k => !(k == "") && strStartsWith k "sk-"

/-- Here `charsContain pat s` decides whether `pat` occurs as a contiguous
substring of `s` (JavaScript `s.includes(pat)`). -/
def charsContain (pat : List Char) : List Char → Bool
  | [] => pat.isEmpty
  | c :: rest => pat.isPrefixOf (c :: rest) || charsContain pat rest

/-- JavaScript `s.includes(pat)` on strings. -/
def containsSubstr (s pat : String) : Bool :=
  charsContain pat.toList s.toList

/-- JavaScript `s.toLowerCase()` (character-wise lowering; the error
messages classified by `analyzeImages` are ASCII). -/
def lowerString (s : String) : String :=
  ⟨s.toList.map Char.toLower⟩

/-- The billing classification of a Claude failure in `analyzeImages`
(line 379): `msg.includes("credit balance") || msg.includes("billing") ||
msg.includes("too low")` on the lower-cased message. -/
def isBillingMessage (msg : String) : Bool :=
  let m := lowerString msg
  containsSubstr m "credit balance" || containsSubstr m "billing" ||
    containsSubstr m "too low"

/-- The record pushed on the success path of `analyzeImages`
(lines 408-417). -/
def mkAnalysis (now : Nat) (file : FileInput) (i : Nat)
    (aiResult : ClaudeVisionResponse) : VisionAnalysis :=
  { id := "vision-" ++ toString now ++ "-" ++ toString i
    imageUrl := file.url
    uploadedAt := now
    visualDNA := aiResult.visualDNA
    lifestyleInference := aiResult.lifestyleInference
    sensoryTriggers := aiResult.sensoryTriggers
    sopMapping := aiResult.sopMapping
    manifestationPath := generateManifestationPath aiResult
    relatedVisions := none }

/-- Outcome of one iteration of the `analyzeImages` loop: the record pushed
for the image, the live transports invoked, and whether the `try` block
completed (only then does the loop execute `setProgress`). -/
structure StepResult where
  record : VisionAnalysis
  transports : List Provider
  liveSuccess : Bool
deriving DecidableEq

/-- One iteration of the `for` loop of `analyzeImages` (lines 360-428):
demo sentinel short-circuit; else Claude when a key of the expected format
is stored (any Claude failure — billing-classified or not — throws
`TriggerFallback`, never cascading to ModelScope); else ModelScope; every
failure is caught and replaced by `generateFallbackAnalysis`. -/
def analyzeOneStep (env : Env) (file : FileInput) (i : Nat) : StepResult :=
  if file.name = "My_Vision_Board_Demo.png" then
    { record := mkAnalysis env.now file i getDemoMockResponse
      transports := []
      liveSuccess := true }
  else if claudeKeyConfigured env.claudeKey then
    match env.claudeCall i with
    | .ok aiResult =>
      { record := mkAnalysis env.now file i aiResult
        transports := [.claude]
        liveSuccess := true }
    | .error msg =>
      if isBillingMessage msg then
        { record := generateFallbackAnalysis env.now file i
          transports := [.claude]
          liveSuccess := false }
      else
        { record := generateFallbackAnalysis env.now file i
          transports := [.claude]
          liveSuccess := false }
  else
    match env.modelScopeCall i with
    | .ok aiResult =>
      { record := mkAnalysis env.now file i aiResult
        transports := [.modelScope]
        liveSuccess := true }
    | .error _ =>
      { record := generateFallbackAnalysis env.now file i
        transports := [.modelScope]
        liveSuccess := false }

/-- The loop of `analyzeImages`, threading the image index and the last
value passed to `setProgress`.  `setProgress(((i + 1) / files.length) * 100)`
runs only on the success path; the catch path leaves progress unchanged. -/
def analyzeImagesAux (env : Env) (total : Nat) :
    Nat → ℚ → List FileInput → List VisionAnalysis × ℚ
  | _, progress, [] => ([], progress)
  | i, progress, file :: rest =>
    let step := analyzeOneStep env file i
    let progress' :=
      if step.liveSuccess then ((i + 1 : ℚ) / (total : ℚ)) * 100 else progress
    let next := analyzeImagesAux env total (i + 1) progress' rest
    (step.record :: next.1, next.2)

/-- Function `analyzeImages` of `useVisionAnalysis` (lines 352-433): the
accumulated
`analyses` array and the final value of the `progress` state
(`setProgress(0)` runs first, so progress starts at 0). -/
def analyzeImages (env : Env) (files : List FileInput) :
    List VisionAnalysis × ℚ :=
  analyzeImagesAux env files.length 0 0 files

/-- Count `sharedColors.length` of `detectRelations`: the number of
elements of
the palette of `analysis` contained in the palette of `other`, counted as
the JavaScript `filter` does — with multiplicity on the side of
`analysis`. -/
def sharedColorCount (analysis other : VisionAnalysis) : Nat :=
  (analysis.visualDNA.colorPalette.filter
    (fun color => other.visualDNA.colorPalette.contains color)).length

/-- Count `sharedEmotions.length` of `detectRelations`. -/
def sharedEmotionCount (analysis other : VisionAnalysis) : Nat :=
  (analysis.visualDNA.emotionalCore.filter
    (fun emotion => other.visualDNA.emotionalCore.contains emotion)).length

/-- Count `sharedValues.length` of `detectRelations`. -/
def sharedValueCount (analysis other : VisionAnalysis) : Nat :=
  (analysis.lifestyleInference.values.filter
    (fun value => other.lifestyleInference.values.contains value)).length

/-- The similarity score of `detectRelations`:
`sharedColors.length * 0.2 + sharedEmotions.length * 0.3 +
sharedValues.length * 0.3`. -/
def similarity (analysis other : VisionAnalysis) : ℚ :=
  (sharedColorCount analysis other : ℚ) * 0.2
    + (sharedEmotionCount analysis other : ℚ) * 0.3
    + (sharedValueCount analysis other : ℚ) * 0.3

/-- The similarity score in integer tenths: `10 * similarity`.  Kept in
`Nat` so the `similarity >= 0.5` branch of `detectRelations` is a kernel-
computable comparison; `half_le_similarity_iff` below proves it decides
exactly the condition found in the source. -/
def similarityTenths (analysis other : VisionAnalysis) : Nat :=
  2 * sharedColorCount analysis other + 3 * sharedEmotionCount analysis other
    + 3 * sharedValueCount analysis other

/-- The rational similarity score is the tenths score divided by 10. -/
theorem similarity_eq_tenths (analysis other : VisionAnalysis) :
    similarity analysis other = (similarityTenths analysis other : ℚ) / 10 := by
  unfold similarity similarityTenths
  push_cast
  ring

/-- Condition `similarity >= 0.5` holds exactly when the tenths score is at
least 5. -/
theorem half_le_similarity_iff (analysis other : VisionAnalysis) :
    (0.5 : ℚ) ≤ similarity analysis other ↔ 5 ≤ similarityTenths analysis other := by
  rw [similarity_eq_tenths, le_div_iff₀ (by norm_num : (0 : ℚ) < 10)]
  constructor
  · intro h
    exact_mod_cast (by linarith : (5 : ℚ) ≤ (similarityTenths analysis other : ℚ))
  · intro h
    have h5 : (5 : ℚ) ≤ (similarityTenths analysis other : ℚ) := by exact_mod_cast h
    linarith

/-- The inner `forEach` of `detectRelations`: walk the collection with a
running index `otherIndex`, skip the record at position `index`, and push
`other.id` whenever `similarity >= 0.5` (decided through the exact integer
form `5 ≤ similarityTenths`, see `half_le_similarity_iff`). -/
def relatedIdsAux (analysis : VisionAnalysis) (index : Nat) :
    Nat → List VisionAnalysis → List String
  | _, [] => []
  | otherIndex, other :: rest =>
    if index = otherIndex then relatedIdsAux analysis index (otherIndex + 1) rest
    else if 5 ≤ similarityTenths analysis other then
      other.id :: relatedIdsAux analysis index (otherIndex + 1) rest
    else relatedIdsAux analysis index (otherIndex + 1) rest

/-- The related-id list computed for the record at position `index`. -/
def relatedIds (all : List VisionAnalysis) (index : Nat)
    (analysis : VisionAnalysis) : List String :=
  relatedIdsAux analysis index 0 all

/-- The outer `map` of `detectRelations` with its running index. -/
def detectRelationsAux (all : List VisionAnalysis) :
    Nat → List VisionAnalysis → List VisionAnalysis
  | _, [] => []
  | index, analysis :: rest =>
    { analysis with relatedVisions := some (relatedIds all index analysis) }
      :: detectRelationsAux all (index + 1) rest

/-- Function `detectRelations` of the application entry file (lines
232-266): map
every record to a copy whose `relatedVisions` holds the ids of all other
records with similarity `>= 0.5`. -/
def detectRelations (analyses : List VisionAnalysis) : List VisionAnalysis :=
  detectRelationsAux analyses 0 analyses

/-- The suffix of `text` immediately after the first occurrence of the
non-empty pattern `pat`, or `none` when `pat` does not occur. -/
def splitAfterFirst (pat : List Char) : List Char → Option (List Char)
  | [] => none
  | c :: rest =>
    if pat.isPrefixOf (c :: rest) then some ((c :: rest).drop pat.length)
    else splitAfterFirst pat rest

/-- The prefix of `text` strictly before the first occurrence of the
non-empty pattern `pat`, or `none` when `pat` does not occur. -/
def takeBeforeFirst (pat : List Char) : List Char → Option (List Char)
  | [] => none
  | c :: rest =>
    if pat.isPrefixOf (c :: rest) then some []
    else (takeBeforeFirst pat rest).map (fun l => c :: l)

/-- The capture group of the lazy fenced-block regexes of `parseAIResponse`
(`` /```json\n([\s\S]*?)\n```/ `` and `` /```\n([\s\S]*?)\n```/ ``): the
text between the first occurrence of `openPat` and the earliest following
occurrence of `closePat`.  A JavaScript regex match starts at the leftmost
possible position, and a lazy quantifier selects the earliest close; if the
first `openPat` occurrence has no following `closePat` then no occurrence
has one, so this two-step search computes exactly the regex capture. -/
def fencedCapture (openPat closePat text : List Char) : Option (List Char) :=
  (splitAfterFirst openPat text).bind (fun rest => takeBeforeFirst closePat rest)

/-- JavaScript `text.indexOf(c)` for a single character, as an `Option`. -/
def firstIndexOfChar (c : Char) (text : List Char) : Option Nat :=
  text.findIdx? (fun x => x = c)

/-- JavaScript `text.lastIndexOf(c)` for a single character, as an
`Option`. -/
def lastIndexOfChar (c : Char) (text : List Char) : Option Nat :=
  (text.reverse.findIdx? (fun x => x = c)).map (fun j => text.length - 1 - j)

/-- JavaScript `text.substring(a, b)`: the slice between the two indices,
with the bounds swapped when given in descending order. -/
def jsSubstring (text : List Char) (a b : Nat) : List Char :=
  (text.take (max a b)).drop (min a b)

/-- Function `parseAIResponse` of `enhanced-analysis.tsx` (lines 208-222),
parameterised by the host function `JSON.parse` (`jsonParse`, with `none` for a
thrown `SyntaxError`): try the `json`-labelled fenced block, else any
fenced block, and parse the capture; else, when both a `\x7b` and a `\x7d`
occur, parse the substring from the first `\x7b` to the last `\x7d`; else
parse the whole text.  Any decode failure is caught by the single
surrounding `try` and becomes the one terminal `TriggerFallback` error,
modelled as `Except.error ()`. -/
def parseAIResponse {α : Type} (jsonParse : List Char → Option α)
    (text : List Char) : Except Unit α :=
  let jsonMatch :=
    (fencedCapture ("```json\n".toList) ("\n```".toList) text).orElse
      (fun _ => fencedCapture ("```\n".toList) ("\n```".toList) text)
  match jsonMatch with
  | some captured =>
    match jsonParse captured with
    | some v => .ok v
    | none => .error ()
  | none =>
    match firstIndexOfChar '\x7b' text, lastIndexOfChar '\x7d' text with
    | some firstBrace, some lastBrace =>
      match jsonParse (jsSubstring text firstBrace (lastBrace + 1)) with
      | some v => .ok v
      | none => .error ()
    | some _, none =>
      match jsonParse text with
      | some v => .ok v
      | none => .error ()
    | none, _ =>
      match jsonParse text with
      | some v => .ok v
      | none => .error ()

/-- Parser following the wording of the claim, for comparison with
`parseAIResponse`: stage (1) a fenced block labelled `json`; (2) else the
substring from the first `\x7b` to the last `\x7d`; (3) else the whole
text — with no stage for an unlabelled fenced block. -/
def specStatedParse {α : Type} (jsonParse : List Char → Option α)
    (text : List Char) : Except Unit α :=
  match fencedCapture ("```json\n".toList) ("\n```".toList) text with
  | some captured =>
    match jsonParse captured with
    | some v => .ok v
    | none => .error ()
  | none =>
    match firstIndexOfChar '\x7b' text, lastIndexOfChar '\x7d' text with
    | some firstBrace, some lastBrace =>
      match jsonParse (jsSubstring text firstBrace (lastBrace + 1)) with
      | some v => .ok v
      | none => .error ()
    | _, _ =>
      match jsonParse text with
      | some v => .ok v
      | none => .error ()

/-- Parser following the wording of the amended claim: stage (1) a fenced block
labelled `json`; (1b) else any fenced block; (2) else the substring from
the first `\x7b` to the last `\x7d` when both occur; (3) else the whole
text; any decode failure at the selected stage is the single terminal
parse error. -/
def specAmendedParse {α : Type} (jsonParse : List Char → Option α)
    (text : List Char) : Except Unit α :=
  match fencedCapture ("```json\n".toList) ("\n```".toList) text with
  | some captured =>
    match jsonParse captured with
    | some v => .ok v
    | none => .error ()
  | none =>
    match fencedCapture ("```\n".toList) ("\n```".toList) text with
    | some captured =>
      match jsonParse captured with
      | some v => .ok v
      | none => .error ()
    | none =>
      match firstIndexOfChar '\x7b' text, lastIndexOfChar '\x7d' text with
      | some firstBrace, some lastBrace =>
        match jsonParse (jsSubstring text firstBrace (lastBrace + 1)) with
        | some v => .ok v
        | none => .error ()
      | _, _ =>
        match jsonParse text with
        | some v => .ok v
        | none => .error ()

/-- Membership in the list produced by the inner `forEach`: `s` occurs
exactly when some record at another walk position has similarity at least
0.5 with `analysis` and carries id `s`. -/
theorem mem_relatedIdsAux (analysis : VisionAnalysis) (idx : Nat) (s : String) :
    ∀ (start : Nat) (l : List VisionAnalysis),
      (s ∈ relatedIdsAux analysis idx start l ↔
        ∃ j, ∃ hj : j < l.length, start + j ≠ idx ∧
          5 ≤ similarityTenths analysis (l.get ⟨j, hj⟩) ∧ (l.get ⟨j, hj⟩).id = s) := by
  intro start l
  induction l generalizing start with
  | nil => simp [relatedIdsAux]
  | cons other rest ih =>
    simp only [relatedIdsAux]
    by_cases h1 : idx = start
    · rw [if_pos h1, ih (start + 1)]
      constructor
      · rintro ⟨j, hj, hne, hsim, hid⟩
        exact ⟨j + 1, by simpa using Nat.succ_lt_succ hj, by omega, hsim, hid⟩
      · rintro ⟨j, hj, hne, hsim, hid⟩
        cases j with
        | zero => omega
        | succ n =>
          exact ⟨n, by simpa using Nat.lt_of_succ_lt_succ hj, by omega, hsim, hid⟩
    · rw [if_neg h1]
      by_cases h2 : 5 ≤ similarityTenths analysis other
      · rw [if_pos h2]
        simp only [List.mem_cons]
        constructor
        · rintro (rfl | hmem)
          · exact ⟨0, by simp, by omega, h2, rfl⟩
          · obtain ⟨j, hj, hne, hsim, hid⟩ := (ih (start + 1)).mp hmem
            exact ⟨j + 1, by simpa using Nat.succ_lt_succ hj, by omega, hsim, hid⟩
        · rintro ⟨j, hj, hne, hsim, hid⟩
          cases j with
          | zero => exact Or.inl hid.symm
          | succ n =>
            exact Or.inr ((ih (start + 1)).mpr
              ⟨n, by simpa using Nat.lt_of_succ_lt_succ hj, by omega, hsim, hid⟩)
      · rw [if_neg h2, ih (start + 1)]
        constructor
        · rintro ⟨j, hj, hne, hsim, hid⟩
          exact ⟨j + 1, by simpa using Nat.succ_lt_succ hj, by omega, hsim, hid⟩
        · rintro ⟨j, hj, hne, hsim, hid⟩
          cases j with
          | zero => exact absurd hsim h2
          | succ n =>
            exact ⟨n, by simpa using Nat.lt_of_succ_lt_succ hj, by omega, hsim, hid⟩

theorem detectRelationsAux_length (all : List VisionAnalysis) :
    ∀ (k : Nat) (l : List VisionAnalysis),
      (detectRelationsAux all k l).length = l.length := by
  intro k l
  induction l generalizing k with
  | nil => simp [detectRelationsAux]
  | cons a rest ih => simp [detectRelationsAux, ih]

theorem detectRelationsAux_get (all : List VisionAnalysis) :
    ∀ (k : Nat) (l : List VisionAnalysis) (i : Nat) (hi : i < l.length)
      (ho : i < (detectRelationsAux all k l).length),
      (detectRelationsAux all k l).get ⟨i, ho⟩ =
        { l.get ⟨i, hi⟩ with
          relatedVisions := some (relatedIds all (k + i) (l.get ⟨i, hi⟩)) } := by
  intro k l
  induction l generalizing k with
  | nil => intro i hi; exact absurd hi (by simp)
  | cons a rest ih =>
    intro i hi ho
    cases i with
    | zero => simp [detectRelationsAux]
    | succ n =>
      have hn : n < rest.length := by simpa using Nat.lt_of_succ_lt_succ hi
      have hon : n < (detectRelationsAux all (k + 1) rest).length := by
        rw [detectRelationsAux_length]; exact hn
      have harith : k + (n + 1) = (k + 1) + n := by omega
      simp only [detectRelationsAux, List.get_cons_succ]
      rw [harith]
      exact ih (k + 1) n hn hon

theorem detectRelations_length (analyses : List VisionAnalysis) :
    (detectRelations analyses).length = analyses.length :=
  detectRelationsAux_length analyses 0 analyses

theorem detectRelations_get (analyses : List VisionAnalysis) (i : Nat)
    (hi : i < analyses.length) (ho : i < (detectRelations analyses).length) :
    (detectRelations analyses).get ⟨i, ho⟩ =
      { analyses.get ⟨i, hi⟩ with
        relatedVisions := some (relatedIds analyses i (analyses.get ⟨i, hi⟩)) } := by
  have := detectRelationsAux_get analyses 0 analyses i hi ho
  simpa using this

theorem mem_relatedVisions_iff (analyses : List VisionAnalysis) (i : Nat)
    (hi : i < analyses.length) (ho : i < (detectRelations analyses).length)
    (s : String) :
    (s ∈ (((detectRelations analyses).get ⟨i, ho⟩).relatedVisions.getD [])) ↔
      ∃ j, ∃ hj : j < analyses.length, j ≠ i ∧
        5 ≤ similarityTenths (analyses.get ⟨i, hi⟩) (analyses.get ⟨j, hj⟩) ∧
        (analyses.get ⟨j, hj⟩).id = s := by
  rw [detectRelations_get analyses i hi ho]
  show s ∈ relatedIds analyses i (analyses.get ⟨i, hi⟩) ↔ _
  rw [relatedIds, mem_relatedIdsAux]
  constructor
  · rintro ⟨j, hj, hne, hsim, hid⟩
    exact ⟨j, hj, by omega, hsim, hid⟩
  · rintro ⟨j, hj, hne, hsim, hid⟩
    exact ⟨j, hj, by omega, hsim, hid⟩

/-- For duplicate-free lists, counting the elements of `x` contained in `y`
and the elements of `y` contained in `x` gives the same number: both equal
the cardinality of the intersection of the two element sets. -/
theorem filter_contains_length_comm (x y : List String)
    (hx : x.Nodup) (hy : y.Nodup) :
    (x.filter (fun s => y.contains s)).length
      = (y.filter (fun s => x.contains s)).length := by
  have key : ∀ (u v : List String),
      (u.filter (fun s => v.contains s)).toFinset = u.toFinset ∩ v.toFinset := by
    intro u v; ext s; simp [List.mem_filter]
  calc (x.filter (fun s => y.contains s)).length
      = (x.filter (fun s => y.contains s)).toFinset.card :=
        (List.toFinset_card_of_nodup (hx.filter _)).symm
    _ = (x.toFinset ∩ y.toFinset).card := by rw [key]
    _ = (y.toFinset ∩ x.toFinset).card := by rw [Finset.inter_comm]
    _ = (y.filter (fun s => x.contains s)).toFinset.card := by rw [key]
    _ = (y.filter (fun s => x.contains s)).length :=
        List.toFinset_card_of_nodup (hy.filter _)

/-- The three lists `detectRelations` compares contain no duplicate
entries. -/
def DedupedRecord (a : VisionAnalysis) : Prop :=
  a.visualDNA.colorPalette.Nodup ∧ a.visualDNA.emotionalCore.Nodup ∧
    a.lifestyleInference.values.Nodup

instance (a : VisionAnalysis) : Decidable (DedupedRecord a) := by
  unfold DedupedRecord; infer_instance

/-- On duplicate-free records the similarity score is symmetric. -/
theorem similarityTenths_comm (a b : VisionAnalysis)
    (ha : DedupedRecord a) (hb : DedupedRecord b) :
    similarityTenths a b = similarityTenths b a := by
  unfold similarityTenths sharedColorCount sharedEmotionCount sharedValueCount
  rw [filter_contains_length_comm _ _ ha.1 hb.1,
    filter_contains_length_comm _ _ ha.2.1 hb.2.1,
    filter_contains_length_comm _ _ ha.2.2 hb.2.2]

/-- When the ids of a collection are pairwise distinct, a position is
determined by the id of its record. -/
theorem id_inj_of_nodup (analyses : List VisionAnalysis)
    (hids : (analyses.map (fun a => a.id)).Nodup)
    {k j : Nat} (hk : k < analyses.length) (hj : j < analyses.length)
    (h : (analyses.get ⟨k, hk⟩).id = (analyses.get ⟨j, hj⟩).id) : k = j := by
  have hinj := List.nodup_iff_injective_get.mp hids
  have hk2 : k < (analyses.map (fun a => a.id)).length := by simpa using hk
  have hj2 : j < (analyses.map (fun a => a.id)).length := by simpa using hj
  have heq : (analyses.map (fun a => a.id)).get ⟨k, hk2⟩
      = (analyses.map (fun a => a.id)).get ⟨j, hj2⟩ := by
    simpa [List.getElem_map] using h
  have := hinj heq
  exact congrArg Fin.val this

/-- Test fixture: a record with the given id, palette, emotional core and
lifestyle values, all other fields blank. -/
def plainRecord (idv : String) (colors emotions vals : List String) :
    VisionAnalysis :=
  { id := idv
    imageUrl := "blob:fixture"
    uploadedAt := 0
    visualDNA :=
      { colorPalette := colors, materials := [], lighting := ""
        spatialFeeling := some "", emotionalCore := emotions, archetype := "" }
    lifestyleInference := { pace := "", values := vals, dailyRituals := [] }
    sensoryTriggers := { smell := "", sound := "", touch := "" }
    sopMapping := []
    manifestationPath := []
    relatedVisions := none }

/-- Fixture: one shared color and two shared emotions with `recSky`. -/
def recSea : VisionAnalysis :=
  plainRecord "vision-A" ["#111", "#222"] ["Calm", "Bold"] ["Craft"]

/-- Fixture: one shared color and two shared emotions with `recSea`. -/
def recSky : VisionAnalysis :=
  plainRecord "vision-B" ["#111"] ["Calm", "Bold"] []

/-- Fixture: the emotional core lists the same entry twice. -/
def recDupe : VisionAnalysis :=
  plainRecord "vision-C" [] ["Calm", "Calm"] []

/-- Fixture: a single-entry emotional core overlapping `recDupe`. -/
def recSolo : VisionAnalysis :=
  plainRecord "vision-D" [] ["Calm"] []

/-- Fixture: the palette lists the same color three times. -/
def recTriple : VisionAnalysis :=
  plainRecord "vision-E" ["#AAA", "#AAA", "#AAA"] [] []

/-- Fixture: a single-color palette overlapping `recTriple`. -/
def recSingle : VisionAnalysis :=
  plainRecord "vision-F" ["#AAA"] [] []

/-- Similarity as claim C7 words it: 0.2 per color value present in both
palettes — distinct values, not occurrences — plus 0.3 per shared
emotional-core value plus 0.3 per shared lifestyle value. -/
def claimSimilarityByValue (a b : VisionAnalysis) : ℚ :=
  ((a.visualDNA.colorPalette.dedup.filter
      (fun c => b.visualDNA.colorPalette.contains c)).length : ℚ) * 0.2
  + ((a.visualDNA.emotionalCore.dedup.filter
      (fun e => b.visualDNA.emotionalCore.contains e)).length : ℚ) * 0.3
  + ((a.lifestyleInference.values.dedup.filter
      (fun v => b.lifestyleInference.values.contains v)).length : ℚ) * 0.3

/-- C7 (counterexample): with the palette of `recTriple` repeating one
color three times, only one color value is present in both palettes, so
the per-value score of the claim is 0.2 < 0.5 and predicts no relation;
the code
counts the value three times (score 0.6) and does relate the records. -/
theorem detectRelations_per_value_counterexample :
    claimSimilarityByValue recTriple recSingle < 0.5 ∧
    ("vision-F" ∈
      (((detectRelations [recTriple, recSingle]).get
        ⟨0, by decide⟩).relatedVisions.getD [])) := by
  constructor
  · have h1 : (recTriple.visualDNA.colorPalette.dedup.filter
        (fun c => recSingle.visualDNA.colorPalette.contains c)).length = 1 := by decide
    have h2 : (recTriple.visualDNA.emotionalCore.dedup.filter
        (fun e => recSingle.visualDNA.emotionalCore.contains e)).length = 0 := by decide
    have h3 : (recTriple.lifestyleInference.values.dedup.filter
        (fun v => recSingle.lifestyleInference.values.contains v)).length = 0 := by decide
    rw [claimSimilarityByValue, h1, h2, h3]
    norm_num
  · decide

/-- C7 (amended): with pairwise-distinct ids, the id of the record at
position `j` is in the `relatedVisions` of the output record at position
`i` exactly when the similarity score of the source — 0.2 per occurrence
in the palette of `i` of a color present in the palette of `j`, 0.3 per
occurrence of a
shared emotional-core entry, 0.3 per occurrence of a shared lifestyle
value — is at least 0.5. -/
theorem detectRelations_threshold (analyses : List VisionAnalysis)
    (hids : (analyses.map (fun a => a.id)).Nodup)
    (i j : Nat) (hi : i < analyses.length) (hj : j < analyses.length)
    (hij : j ≠ i) (ho : i < (detectRelations analyses).length) :
    ((analyses.get ⟨j, hj⟩).id ∈
        (((detectRelations analyses).get ⟨i, ho⟩).relatedVisions.getD [])) ↔
      (0.5 : ℚ) ≤ similarity (analyses.get ⟨i, hi⟩) (analyses.get ⟨j, hj⟩) := by
  rw [mem_relatedVisions_iff analyses i hi ho, half_le_similarity_iff]
  constructor
  · rintro ⟨k, hk, hki, hsim, hid⟩
    have hkj : k = j := id_inj_of_nodup analyses hids hk hj hid
    subst hkj
    exact hsim
  · intro hsim
    exact ⟨j, hj, hij, hsim, rfl⟩

/-- Witness for `detectRelations_threshold` at the two-record fixture
collection. -/
theorem detectRelations_threshold_witness :
    ((([recSea, recSky] : List VisionAnalysis).get ⟨1, by decide⟩).id ∈
        (((detectRelations [recSea, recSky]).get
          ⟨0, by decide⟩).relatedVisions.getD [])) ↔
      (0.5 : ℚ) ≤ similarity (([recSea, recSky] : List VisionAnalysis).get ⟨0, by decide⟩)
        (([recSea, recSky] : List VisionAnalysis).get ⟨1, by decide⟩) :=
  detectRelations_threshold [recSea, recSky] (by decide) 0 1 (by decide)
    (by decide) (by decide) (by decide)

/-- C8 (counterexample): `recDupe` lists "Calm" twice, so its score toward
`recSolo` is 0.6 while the score of `recSolo` toward `recDupe` is 0.3; the
relation is not symmetric. -/
theorem detectRelations_asymmetric_counterexample :
    ("vision-D" ∈
      (((detectRelations [recDupe, recSolo]).get
        ⟨0, by decide⟩).relatedVisions.getD [])) ∧
    ¬ ("vision-C" ∈
      (((detectRelations [recDupe, recSolo]).get
        ⟨1, by decide⟩).relatedVisions.getD [])) := by
  constructor
  · decide
  · decide

/-- C8 (amended): when the palette, emotional core and value lists of
every record are duplicate-free and ids are pairwise distinct, the
relation is symmetric: the id of `j` is related to `i` exactly when the
id of `i` is related to `j`. -/
theorem detectRelations_symm_of_nodup (analyses : List VisionAnalysis)
    (hdedup : ∀ a ∈ analyses, DedupedRecord a)
    (hids : (analyses.map (fun a => a.id)).Nodup)
    (i j : Nat) (hi : i < analyses.length) (hj : j < analyses.length)
    (hoi : i < (detectRelations analyses).length)
    (hoj : j < (detectRelations analyses).length) :
    ((analyses.get ⟨j, hj⟩).id ∈
        (((detectRelations analyses).get ⟨i, hoi⟩).relatedVisions.getD [])) ↔
      ((analyses.get ⟨i, hi⟩).id ∈
        (((detectRelations analyses).get ⟨j, hoj⟩).relatedVisions.getD [])) := by
  rw [mem_relatedVisions_iff analyses i hi hoi,
    mem_relatedVisions_iff analyses j hj hoj]
  have hsymm : similarityTenths (analyses.get ⟨i, hi⟩) (analyses.get ⟨j, hj⟩)
      = similarityTenths (analyses.get ⟨j, hj⟩) (analyses.get ⟨i, hi⟩) :=
    similarityTenths_comm _ _ (hdedup _ (List.get_mem _ _ _))
      (hdedup _ (List.get_mem _ _ _))
  constructor
  · rintro ⟨k, hk, hki, hsim, hid⟩
    have hkj : k = j := id_inj_of_nodup analyses hids hk hj hid
    subst hkj
    refine ⟨i, hi, fun hcon => hki hcon.symm, ?_, rfl⟩
    rw [← hsymm]
    exact hsim
  · rintro ⟨k, hk, hkj, hsim, hid⟩
    have hki : k = i := id_inj_of_nodup analyses hids hk hi hid
    subst hki
    refine ⟨j, hj, fun hcon => hkj hcon.symm, ?_, rfl⟩
    rw [hsymm]
    exact hsim

/-- Witness for `detectRelations_symm_of_nodup` at the two-record fixture
collection. -/
theorem detectRelations_symm_witness :
    ((([recSea, recSky] : List VisionAnalysis).get ⟨1, by decide⟩).id ∈
        (((detectRelations [recSea, recSky]).get
          ⟨0, by decide⟩).relatedVisions.getD [])) ↔
      ((([recSea, recSky] : List VisionAnalysis).get ⟨0, by decide⟩).id ∈
        (((detectRelations [recSea, recSky]).get
          ⟨1, by decide⟩).relatedVisions.getD [])) :=
  detectRelations_symm_of_nodup [recSea, recSky] (by decide) (by decide)
    0 1 (by decide) (by decide) (by decide) (by decide)

/-- C10: `detectRelations` preserves the length and order of its input and
changes no field but `relatedVisions`. -/
theorem detectRelations_frame (analyses : List VisionAnalysis) :
    (detectRelations analyses).length = analyses.length ∧
    ∀ (i : Nat) (hi : i < analyses.length)
      (ho : i < (detectRelations analyses).length),
      ((detectRelations analyses).get ⟨i, ho⟩).id = (analyses.get ⟨i, hi⟩).id ∧
      ((detectRelations analyses).get ⟨i, ho⟩).imageUrl
        = (analyses.get ⟨i, hi⟩).imageUrl ∧
      ((detectRelations analyses).get ⟨i, ho⟩).uploadedAt
        = (analyses.get ⟨i, hi⟩).uploadedAt ∧
      ((detectRelations analyses).get ⟨i, ho⟩).visualDNA
        = (analyses.get ⟨i, hi⟩).visualDNA ∧
      ((detectRelations analyses).get ⟨i, ho⟩).lifestyleInference
        = (analyses.get ⟨i, hi⟩).lifestyleInference ∧
      ((detectRelations analyses).get ⟨i, ho⟩).sensoryTriggers
        = (analyses.get ⟨i, hi⟩).sensoryTriggers ∧
      ((detectRelations analyses).get ⟨i, ho⟩).sopMapping
        = (analyses.get ⟨i, hi⟩).sopMapping ∧
      ((detectRelations analyses).get ⟨i, ho⟩).manifestationPath
        = (analyses.get ⟨i, hi⟩).manifestationPath := by
  refine ⟨detectRelations_length analyses, ?_⟩
  intro i hi ho
  rw [detectRelations_get analyses i hi ho]
  exact ⟨rfl, rfl, rfl, rfl, rfl, rfl, rfl, rfl⟩

/-- Witness for `detectRelations_frame` at the two-record fixture
collection. -/
theorem detectRelations_frame_witness :
    (detectRelations [recSea, recSky]).length
        = ([recSea, recSky] : List VisionAnalysis).length ∧
    ((detectRelations [recSea, recSky]).get ⟨0, by decide⟩).id
        = (([recSea, recSky] : List VisionAnalysis).get ⟨0, by decide⟩).id ∧
    ((detectRelations [recSea, recSky]).get ⟨0, by decide⟩).visualDNA
        = (([recSea, recSky] : List VisionAnalysis).get ⟨0, by decide⟩).visualDNA := by
  have h := detectRelations_frame [recSea, recSky]
  have h0 := h.2 0 (by decide) (by decide)
  exact ⟨h.1, h0.1, h0.2.2.2.1⟩

/-- A `JSON.parse` fragment for the C9 counterexample, consistent with the
real decoder on the strings it is queried at: `"2"` parses to the number 2
and the full counterexample text is not valid JSON. -/
def jpNum : List Char → Option Nat :=
  fun s => if s = "2".toList then some 2 else none

/-- C9 counterexample text: an opening brace with no closing brace,
followed by an unlabelled fenced block holding `2`. -/
def parserStageText : List Char :=
  "\x7b\n```\n2\n```".toList

/-- C9 (counterexample): on `parserStageText` the three stages of the claim
find no labelled fenced block and no closing brace, parse the whole text,
and fail; the extra unlabelled-fence stage of the code succeeds and
returns 2, so
the claimed extraction order does not describe `parseAIResponse`. -/
theorem parseAIResponse_stage_counterexample :
    parseAIResponse jpNum parserStageText = .ok 2 ∧
    specStatedParse jpNum parserStageText = .error () :=
  ⟨rfl, rfl⟩

/-- C9 (amended): `parseAIResponse` follows the amended four-stage
extraction order — labelled fence, any fence, first-brace-to-last-brace,
whole text — with every decode failure becoming the single terminal parse
error. -/
theorem parseAIResponse_follows_amended_stages {α : Type}
    (jsonParse : List Char → Option α) (text : List Char) :
    parseAIResponse jsonParse text = specAmendedParse jsonParse text := by
  unfold parseAIResponse specAmendedParse
  cases h1 : fencedCapture ("```json\n".toList) ("\n```".toList) text with
  | some c => rfl
  | none =>
    cases h2 : fencedCapture ("```\n".toList) ("\n```".toList) text with
    | some c => rfl
    | none =>
      cases h3 : firstIndexOfChar '\x7b' text with
      | some f =>
        cases h4 : lastIndexOfChar '\x7d' text with
        | some l => rfl
        | none => rfl
      | none => rfl

/-- A slot of the manifestation path is never the empty string when its
default is not: a found first action is used only when non-empty. -/
theorem firstActionOr_ne_empty (found : Option SopMappingEntry) (dflt : String)
    (h : dflt ≠ "") : firstActionOr found dflt ≠ "" := by
  cases found with
  | none => simpa [firstActionOr] using h
  | some e =>
    cases h2 : e.actions.head? with
    | none =>
      intro hcon
      rw [firstActionOr, h2] at hcon
      exact h hcon
    | some a =>
      by_cases ha : a = ""
      · intro hcon
        rw [firstActionOr, h2] at hcon
        have hcon2 : (if a = "" then dflt else a) = "" := hcon
        rw [if_pos ha] at hcon2
        exact h hcon2
      · intro hcon
        rw [firstActionOr, h2] at hcon
        have hcon2 : (if a = "" then dflt else a) = "" := hcon
        rw [if_neg ha] at hcon2
        exact ha hcon2

/-- C6: for every structured result the derived path has exactly 4 weekly
entries, each with exactly 2 non-empty action strings, and each of the six
`sopMapping` lookups that can miss is replaced by its documented literal
default; the function is total (never throws). -/
theorem generateManifestationPath_spec (R : ClaudeVisionResponse) :
    (generateManifestationPath R).length = 4 ∧
    (∀ e ∈ generateManifestationPath R,
      e.actions.length = 2 ∧ ∀ a ∈ e.actions, a ≠ "") ∧
    (R.sopMapping.find? (fun m => m.module == "WRITE_PLAN") = none →
      ((generateManifestationPath R).getD 0 ⟨0, "", []⟩).actions.getD 0 ""
        = "更新收集箱") ∧
    (R.sopMapping.find? (fun m => m.module == "PLAN") = none →
      ((generateManifestationPath R).getD 0 ⟨0, "", []⟩).actions.getD 1 ""
        = "设定本月OKR") ∧
    (R.sopMapping.find? (fun m => m.subSystem == "生活物品库存") = none →
      ((generateManifestationPath R).getD 1 ⟨0, "", []⟩).actions.getD 0 ""
        = "清理空间") ∧
    (R.sopMapping.find? (fun m => m.subSystem == "营养与健康") = none →
      ((generateManifestationPath R).getD 2 ⟨0, "", []⟩).actions.getD 0 ""
        = "优化晨间仪式") ∧
    (R.sopMapping.find? (fun m => m.subSystem == "R.I.A. 阅读系统") = none →
      ((generateManifestationPath R).getD 3 ⟨0, "", []⟩).actions.getD 0 ""
        = "Heptabase 输出") ∧
    (R.sopMapping.find? (fun m => m.module == "CHECK") = none →
      ((generateManifestationPath R).getD 3 ⟨0, "", []⟩).actions.getD 1 ""
        = "月度复盘") := by
  refine ⟨rfl, ?_, ?_, ?_, ?_, ?_, ?_, ?_⟩
  · intro e he
    simp only [generateManifestationPath, List.mem_cons, List.not_mem_nil,
      or_false] at he
    rcases he with rfl | rfl | rfl | rfl <;>
      refine ⟨rfl, ?_⟩ <;> intro a ha <;>
      simp only [List.mem_cons, List.not_mem_nil, or_false] at ha
    · rcases ha with rfl | rfl
      · exact firstActionOr_ne_empty _ _ (by decide)
      · exact firstActionOr_ne_empty _ _ (by decide)
    · rcases ha with rfl | rfl
      · exact firstActionOr_ne_empty _ _ (by decide)
      · decide
    · rcases ha with rfl | rfl
      · exact firstActionOr_ne_empty _ _ (by decide)
      · decide
    · rcases ha with rfl | rfl
      · exact firstActionOr_ne_empty _ _ (by decide)
      · exact firstActionOr_ne_empty _ _ (by decide)
  all_goals intro h
  all_goals simp [generateManifestationPath, h, firstActionOr]

/-- A structured result whose `sopMapping` is empty, so every lookup of
`generateManifestationPath` misses. -/
def emptyMappingResponse : ClaudeVisionResponse :=
  { getDemoMockResponse with sopMapping := [] }

/-- Witness for `generateManifestationPath_spec` at a result with an empty
`sopMapping`. -/
theorem generateManifestationPath_spec_witness :
    (generateManifestationPath emptyMappingResponse).length = 4 ∧
    ((generateManifestationPath emptyMappingResponse).getD 0
        ⟨0, "", []⟩).actions.getD 0 "" = "更新收集箱" ∧
    ((generateManifestationPath emptyMappingResponse).getD 0
        ⟨0, "", []⟩).actions.length = 2 := by
  obtain ⟨h1, hall, hW, _⟩ := generateManifestationPath_spec emptyMappingResponse
  exact ⟨h1, hW (by decide), (hall _ (by decide)).1⟩

/-- Test fixture: an ordinary uploaded file (not the demo sentinel). -/
def sampleFile : FileInput := { name := "photo.png", url := "blob:photo" }

/-- C2 (amended): with no usable stored Claude credential and a non-demo
file, one iteration of `analyzeImages` never invokes the Claude transport;
it invokes exactly the server-mediated ModelScope transport, and when that
attempt fails the result for the image is the Fallback Substitution. -/
theorem analyzeOne_no_credential (env : Env) (file : FileInput) (i : Nat)
    (msg : String)
    (hkey : claudeKeyConfigured env.claudeKey = false)
    (hdemo : file.name ≠ "My_Vision_Board_Demo.png")
    (hms : env.modelScopeCall i = .error msg) :
    Provider.claude ∉ (analyzeOneStep env file i).transports ∧
    (analyzeOneStep env file i).transports = [Provider.modelScope] ∧
    (analyzeOneStep env file i).record = generateFallbackAnalysis env.now file i := by
  have hstep : analyzeOneStep env file i =
      { record := generateFallbackAnalysis env.now file i
        transports := [Provider.modelScope]
        liveSuccess := false } := by
    unfold analyzeOneStep
    rw [if_neg hdemo, if_neg (by rw [hkey]; exact Bool.false_ne_true), hms]
  rw [hstep]
  exact ⟨(by decide : Provider.claude ∉ [Provider.modelScope]), rfl, rfl⟩

/-- Fixture environment: no stored credential, ModelScope failing. -/
def envOffline : Env :=
  { claudeKey := none
    claudeCall := fun _ => .error "unreachable"
    modelScopeCall := fun _ => .error "NetworkError: failed to fetch"
    now := 0 }

/-- Witness for `analyzeOne_no_credential` in the offline fixture
environment. -/
theorem analyzeOne_no_credential_witness :
    Provider.claude ∉ (analyzeOneStep envOffline sampleFile 0).transports ∧
    (analyzeOneStep envOffline sampleFile 0).transports = [Provider.modelScope] ∧
    (analyzeOneStep envOffline sampleFile 0).record
      = generateFallbackAnalysis envOffline.now sampleFile 0 :=
  analyzeOne_no_credential envOffline sampleFile 0 "NetworkError: failed to fetch"
    (by decide) (by decide) rfl

/-- C2 (counterexample): with no stored credential at all, the per-image
analysis still invokes the ModelScope network transport, so the transport
list is not empty as the claim requires. -/
theorem analyzeOne_no_credential_counterexample :
    (analyzeOneStep envOffline sampleFile 0).transports = [Provider.modelScope] ∧
    (analyzeOneStep envOffline sampleFile 0).transports ≠ [] := by
  constructor
  · decide
  · decide

/-- C3: when the stored Claude key is used and the Claude call fails with a
billing-classified message, the iteration invokes no second live provider
(ModelScope is never called) and the result for the image is the Fallback
Substitution. -/
theorem analyzeOne_billing_no_cascade (env : Env) (file : FileInput) (i : Nat)
    (msg : String)
    (hdemo : file.name ≠ "My_Vision_Board_Demo.png")
    (hkey : claudeKeyConfigured env.claudeKey = true)
    (hcall : env.claudeCall i = .error msg)
    (_hbill : isBillingMessage msg = true) :
    Provider.modelScope ∉ (analyzeOneStep env file i).transports ∧
    (analyzeOneStep env file i).transports = [Provider.claude] ∧
    (analyzeOneStep env file i).record = generateFallbackAnalysis env.now file i := by
  have hstep : analyzeOneStep env file i =
      if isBillingMessage msg then
        { record := generateFallbackAnalysis env.now file i
          transports := [Provider.claude]
          liveSuccess := false }
      else
        { record := generateFallbackAnalysis env.now file i
          transports := [Provider.claude]
          liveSuccess := false } := by
    unfold analyzeOneStep
    rw [if_neg hdemo, if_pos (by rw [hkey]), hcall]
  rw [hstep, ite_self]
  exact ⟨(by decide : Provider.modelScope ∉ [Provider.claude]), rfl, rfl⟩

/-- Fixture environment: a stored Claude key whose calls fail with a
billing-classified error. -/
def envBillingDown : Env :=
  { claudeKey := some "sk-ant-api03-test"
    claudeCall := fun _ => .error "Billing Error: Your credit balance is too low."
    modelScopeCall := fun _ => .error "unreachable"
    now := 0 }

/-- Witness for `analyzeOne_billing_no_cascade` in the billing-failure
fixture environment. -/
theorem analyzeOne_billing_no_cascade_witness :
    Provider.modelScope ∉ (analyzeOneStep envBillingDown sampleFile 0).transports ∧
    (analyzeOneStep envBillingDown sampleFile 0).transports = [Provider.claude] ∧
    (analyzeOneStep envBillingDown sampleFile 0).record
      = generateFallbackAnalysis envBillingDown.now sampleFile 0 :=
  analyzeOne_billing_no_cascade envBillingDown sampleFile 0
    "Billing Error: Your credit balance is too low."
    (by decide) (by decide) rfl (by decide)

/-- C4 (amended): the Fallback Substitution for image `index` is selected
deterministically from the image index alone — `index % 8` mapped through
the fixed table of `profileIndexForImage` to one of the five profiles —
never from image content: every content field of the produced record equals
the corresponding field of the selected `MOCK_PROFILES` entry regardless of
the file. -/
theorem generateFallbackAnalysis_selection (now : Nat) (file : FileInput)
    (index : Nat) :
    profileIndexForImage index < MOCK_PROFILES.length ∧
    profileIndexForImage index = profileIndexForImage (index % 8) ∧
    (generateFallbackAnalysis now file index).visualDNA
      = (MOCK_PROFILES.getD (profileIndexForImage index) mockProfileMediterranean).visualDNA ∧
    (generateFallbackAnalysis now file index).lifestyleInference
      = (MOCK_PROFILES.getD (profileIndexForImage index) mockProfileMediterranean).lifestyleInference ∧
    (generateFallbackAnalysis now file index).sensoryTriggers
      = (MOCK_PROFILES.getD (profileIndexForImage index) mockProfileMediterranean).sensoryTriggers ∧
    (generateFallbackAnalysis now file index).sopMapping
      = (MOCK_PROFILES.getD (profileIndexForImage index) mockProfileMediterranean).sopMapping ∧
    (generateFallbackAnalysis now file index).manifestationPath
      = generateManifestationPath
          (MOCK_PROFILES.getD (profileIndexForImage index) mockProfileMediterranean) := by
  refine ⟨?_, ?_, rfl, rfl, rfl, rfl, rfl⟩
  · unfold profileIndexForImage
    dsimp only
    split_ifs <;> decide
  · unfold profileIndexForImage
    rw [Nat.mod_mod]

/-- C4 (counterexample): at image index 5 the code selects profile 4
("Silent Companion"), not profile `5 % 5 = 0` ("Mediterranean Muse") as
cycling by the library size would; the produced `visualDNA` differs from
the prediction of the claim. -/
theorem generateFallbackAnalysis_not_mod_library :
    (generateFallbackAnalysis 0 sampleFile 5).visualDNA.archetype
      = "Silent Companion" ∧
    (MOCK_PROFILES.getD (5 % MOCK_PROFILES.length)
        mockProfileMediterranean).visualDNA.archetype = "Mediterranean Muse" ∧
    (generateFallbackAnalysis 0 sampleFile 5).visualDNA
      ≠ (MOCK_PROFILES.getD (5 % MOCK_PROFILES.length)
          mockProfileMediterranean).visualDNA := by
  refine ⟨rfl, rfl, ?_⟩
  decide

/-- C5: the Fallback Substitution for image index 1 (the "Urban Flâneur"
profile) has no `spatialFeeling`, although the `ClaudeVisionResponse`
interface requires one — the substitution is not schema-complete.  The
remaining invariants hold there (non-empty `sopMapping` actions, 4-entry
path), and every other index in the 8-cycle does carry a `spatialFeeling`. -/
theorem fallback_missing_spatialFeeling :
    (generateFallbackAnalysis 0 sampleFile 1).visualDNA.spatialFeeling = none ∧
    ((generateFallbackAnalysis 0 sampleFile 1).sopMapping.all
      (fun e => !e.actions.isEmpty)) = true ∧
    (generateFallbackAnalysis 0 sampleFile 1).manifestationPath.length = 4 ∧
    (((List.range 8).filter (fun i => !(i == 1))).all
      (fun i =>
        ((generateFallbackAnalysis 0 sampleFile i).visualDNA.spatialFeeling).isSome))
      = true := by
  refine ⟨rfl, ?_, rfl, ?_⟩ <;> decide

/-- Fixture: a batch of three ordinary files. -/
def batchOfThree : List FileInput :=
  [ { name := "a.png", url := "blob:a" }
  , { name := "b.png", url := "blob:b" }
  , { name := "c.png", url := "blob:c" } ]

/-- C1: evaluating `analyzeImages` on a batch of 3 images that all fail:
3 results are returned and no exception escapes (the model is total), and
every result has a 4-entry path, but the final reported progress is 0 —
not 100 as the claim requires, because `setProgress` runs only on the
success path — and the second result lacks `spatialFeeling`. -/
theorem analyzeImages_all_fail_eval :
    (analyzeImages envOffline batchOfThree).1.length = 3 ∧
    (analyzeImages envOffline batchOfThree).2 = 0 ∧
    ((analyzeImages envOffline batchOfThree).1.getD 1
        (generateFallbackAnalysis 0 sampleFile 0)).visualDNA.spatialFeeling
      = none ∧
    ((analyzeImages envOffline batchOfThree).1.all
      (fun r => r.manifestationPath.length == 4)) = true := by
  refine ⟨rfl, rfl, by decide, by decide⟩
